import Mathlib

/-!
Verification development for the `personal-codex-agent` repository.

The definitions below are a shallow embedding, into Lean, of the Python code
under `src/`: the document chunker (`src/document_processor.py`), the
embeddings / vector index system (`src/embeddings.py`), the prompt manager
(`src/prompts.py`) and the agent orchestration (`src/agent.py`).  Python
strings are modelled as Lean `String` / `List Char`, numpy float arrays as
`List ℝ`, dynamic dictionaries as association lists, and Python exceptions as
`Except` values.  Python functions that catch exceptions internally are
modelled by functions whose result is always `Except.ok`; a `while` loop whose
termination is in question is modelled with explicit fuel, returning `none`
exactly when the loop runs longer than the supplied fuel.
-/

namespace Codex

/-- Decidable substring test on character lists (helper for statements of the
form "the message contains ..."). -/
def containsSub (s pat : List Char) : Bool :=
  (List.range (s.length + 1)).any (fun i => (s.drop i).take pat.length == pat)

/-- Substring test on strings. -/
def strContains (s pat : String) : Bool :=
  containsSub s.data pat.data

/-! ## Dynamic metadata dictionaries

Chunk metadata in the Python code is a `dict` with string keys whose values
are strings (`source`, `type`, `filename`, ...) or integers (`chunk_index`,
`total_chunks`, `pages`).  We model it as an association list. -/

/-- A value stored in a metadata dictionary. -/
inductive MetaVal where
  | str (s : String)
  | nat (n : Nat)
deriving DecidableEq, Repr

/-- A metadata dictionary: association list from keys to values. -/
abbrev Metadata := List (String × MetaVal)

/-- Python `d.get(k, default)` restricted to string results: returns the
stored string when key `k` is present with a string value, `d` otherwise.
(All lookups performed by the code on chunk metadata — `content`,
`filename` — store strings when present.) -/
def Metadata.getStrD (m : Metadata) (k : String) (d : String) : String :=
  match m.find? (fun p => p.1 == k) with
  | some (_, MetaVal.str s) => s
  | some (_, MetaVal.nat _) => d
  | none => d

/-! ## Chunker (`DocumentProcessor.chunk_text`, src/document_processor.py)

`chunk_text` first normalizes whitespace (`re.sub(r'\s+', ' ', text).strip()`),
returns the whole text when it fits in one chunk, and otherwise runs a
`while` loop sliding a window with sentence-boundary snapping.  The loop is
modelled with fuel since its termination is exactly what claim C4 is about. -/

/-- Replace every maximal whitespace run by a single space
(the effect of `re.sub(r'\s+', ' ', text)`). -/
def squashWs : List Char → List Char
  | [] => []
  | [c] => [if c.isWhitespace then ' ' else c]
  | c :: d :: rest =>
    if c.isWhitespace && d.isWhitespace then squashWs (d :: rest)
    else (if c.isWhitespace then ' ' else c) :: squashWs (d :: rest)

/-- Python `str.strip()`: drop leading and trailing whitespace. -/
def stripWs (s : List Char) : List Char :=
  ((s.dropWhile Char.isWhitespace).reverse.dropWhile Char.isWhitespace).reverse

/-- Whitespace normalization performed at the top of `chunk_text`:
`re.sub(r'\s+', ' ', text).strip()`. -/
def normalizeWs (s : List Char) : List Char :=
  stripWs (squashWs s)

/-- Clamp a (possibly negative) Python slice bound to an index of a string of
length `L`: negative indices count from the end, out-of-range indices clamp. -/
def pyIdx (L : Nat) (i : Int) : Nat :=
  if i < 0 then (i + L).toNat
  else min i.toNat L

/-- Python slicing `s[a:b]` with possibly negative bounds. -/
def pySlice (s : List Char) (a b : Int) : List Char :=
  (s.take (pyIdx s.length b)).drop (pyIdx s.length a)

/-- Python `s.rfind(c)` for a single character: index of the last occurrence,
`-1` when absent. -/
def rfindChar : List Char → Char → Int
  | [], _ => -1
  | x :: xs, c =>
    let r := rfindChar xs c
    if r ≥ 0 then r + 1
    else if x == c then 0 else -1

/-- One iteration of the `while` loop body of `chunk_text` (lines 166-193 of
src/document_processor.py), starting from window start `start`: computes the
(possibly sentence-snapped) window end, the emitted chunk (if its stripped
text is nonempty), and the next value of `start`. -/
def chunkStep (text : List Char) (chunk_size chunk_overlap : Nat) (start : Int) :
    Int × Option (List Char) :=
  let end0 : Int := start + chunk_size
  let endF : Int :=
    if end0 < (text.length : Int) then
      let searchStart : Int := max (start + chunk_size - 100) start
      let searchText := pySlice text searchStart end0
      let lastEnding : Int :=
        max (max (rfindChar searchText '.') (rfindChar searchText '!'))
          (max (rfindChar searchText '?') (rfindChar searchText '\n'))
      if lastEnding ≠ -1 then searchStart + lastEnding + 1 else end0
    else end0
  let chunk := stripWs (pySlice text start endF)
  (endF - chunk_overlap, if chunk.isEmpty then none else some chunk)

/-- The `while start < len(text)` loop of `chunk_text`, with explicit fuel.
Returns `none` when the loop does not finish within `fuel` iterations. -/
def chunkLoop (text : List Char) (chunk_size chunk_overlap : Nat) :
    Nat → Int → List (List Char) → Option (List (List Char))
  | 0, _, _ => none
  | fuel + 1, start, chunks =>
    if start < (text.length : Int) then
      let p := chunkStep text chunk_size chunk_overlap start
      let chunks' := match p.2 with
        | some c => chunks ++ [c]
        | none => chunks
      if p.1 ≥ (text.length : Int) then some chunks'
      else chunkLoop text chunk_size chunk_overlap fuel p.1 chunks'
    else some chunks

/-- Model of `DocumentProcessor.chunk_text(text, chunk_size, chunk_overlap)`
(src/document_processor.py lines 149-195), fuelled.  The value is the list of
chunks when the loop finishes within `fuel` iterations, `none` otherwise. -/
def chunk_text (text : String) (chunk_size chunk_overlap : Nat) (fuel : Nat) :
    Option (List String) :=
  let t := normalizeWs text.data
  if t.length ≤ chunk_size then some [⟨t⟩]
  else (chunkLoop t chunk_size chunk_overlap fuel 0 []).map (·.map (⟨·⟩))

/-! ## Embeddings system (`EmbeddingsSystem`, src/embeddings.py)

Numpy float arrays are modelled as `List ℝ` (exact real arithmetic; the
claims speak of floating-point tolerances, which exact arithmetic meets a
fortiori).  The sentence-transformer model is an external capability,
modelled as an optional function `List String → Except String (List (List ℝ))`
(`None` when loading the model failed).  Python exceptions are `Except`
values; a Python method that catches all exceptions internally is a function
whose result is provably always `Except.ok`. -/

/-- Python exception values relevant to the embedded code. -/
inductive PyError where
  | embeddingGenerationError (msg : String)
  | runtimeError (msg : String)
  | keyError (k : String)
  | typeError (msg : String)
deriving DecidableEq, Repr

noncomputable section

/-- Sum of squares of the entries of a vector. -/
def sumSq (v : List ℝ) : ℝ := (v.map (fun x => x * x)).sum

/-- Model of `np.linalg.norm(v)` for a single row (or a `(1, dim)` matrix, whose
Frobenius norm coincides with the row norm): the L2 norm. -/
def l2norm (v : List ℝ) : ℝ := Real.sqrt (sumSq v)

/-- Row normalization performed in `_add_to_faiss`
(`embeddings / np.linalg.norm(embeddings, axis=1, keepdims=True)`). -/
def normalizeRow (v : List ℝ) : List ℝ := v.map (fun x => x / l2norm v)

/-- Inner product of two vectors (FAISS `IndexFlatIP` scoring). -/
def dot (u v : List ℝ) : ℝ := (List.zipWith (fun a b => a * b) u v).sum

/-- Cosine similarity, as the claims state it:
`⟪u, v⟫ / (‖u‖ * ‖v‖)`. -/
def cosineSim (u v : List ℝ) : ℝ := dot u v / (l2norm u * l2norm v)

/-- Insert a `(score, index)` pair into a list sorted by descending score;
on equal scores the already-present pair (an earlier index) stays first. -/
def insertDesc (p : ℝ × Nat) : List (ℝ × Nat) → List (ℝ × Nat)
  | [] => [p]
  | q :: rest => if q.1 ≥ p.1 then q :: insertDesc p rest else p :: q :: rest

/-- Stable sort of `(score, index)` pairs by descending score. -/
def sortDesc (l : List (ℝ × Nat)) : List (ℝ × Nat) :=
  l.foldl (fun acc p => insertDesc p acc) []

/-- Model of `faiss.IndexFlatIP.search`: inner-product scores of the query against
every stored row, the `k` best returned in descending score order (ties by
insertion order).  The model returns only genuine results: the `-1` padding
FAISS emits when `k` exceeds the index size is omitted (the caller passes
`k = min(top_k, len(chunk_metadata))`, which does not exceed the index size
in any state reachable through `add_documents` / `load_database`). -/
def faissSearch (db : List (List ℝ)) (q : List ℝ) (k : Nat) : List (ℝ × Nat) :=
  (sortDesc (db.enum.map (fun p => (dot q p.2, p.1)))).take k

/-- The state of `EmbeddingsSystem` (src/embeddings.py):
the optional sentence-transformer model, the optional FAISS index (its stored
rows), and the parallel in-memory `chunk_embeddings` / `chunk_metadata`
lists. -/
structure EmbeddingsSystem where
  model : Option (List String → Except String (List (List ℝ)))
  vector_db : Option (List (List ℝ))
  chunk_embeddings : List (List ℝ)
  chunk_metadata : List Metadata

/-- Model of `EmbeddingsSystem.generate_embeddings` (lines 143-171): raises
`EmbeddingGenerationError` when the model is missing or encoding fails,
returns `[]` for an empty text list, and otherwise returns the encoded
rows. -/
def generate_embeddings (sys : EmbeddingsSystem) (texts : List String) :
    Except PyError (List (List ℝ)) :=
  match sys.model with
  | none => .error (.embeddingGenerationError "Embedding model not initialized")
  | some encode =>
    if texts.isEmpty then .ok []
    else
      match encode texts with
      | .ok e => .ok e
      | .error msg =>
        .error (.embeddingGenerationError ("Failed to generate embeddings: " ++ msg))

/-- Model of `EmbeddingsSystem._add_to_faiss` (lines 216-242): raises `RuntimeError`
when the FAISS index is missing; otherwise appends the row-normalized
embeddings to the index and to `chunk_embeddings`, and the metadata entries
to `chunk_metadata`. -/
def add_to_faiss (sys : EmbeddingsSystem) (embeddings : List (List ℝ))
    (metadata : List Metadata) : Except PyError EmbeddingsSystem :=
  match sys.vector_db with
  | none => .error (.runtimeError "FAISS database not initialized")
  | some db =>
    let normalized := embeddings.map normalizeRow
    .ok { sys with
      vector_db := some (db ++ normalized)
      chunk_embeddings := sys.chunk_embeddings ++ normalized
      chunk_metadata := sys.chunk_metadata ++ metadata }

/-- A chunk record as consumed by `add_documents` and produced by
`process_document`: a dict with `content`, `metadata` and (from the
processor) `chunk_id`. -/
structure Chunk where
  content : String
  metadata : Metadata
  chunk_id : Option Nat := none

/-- A processed document as consumed by `add_documents`: a dict with a
`chunks` list. -/
structure Document where
  chunks : List Chunk

/-- Model of `EmbeddingsSystem.add_documents` (lines 173-214): flattens the chunk
contents and metadata of all documents, generates embeddings and adds them
to FAISS.  The whole embedding-and-insert step is wrapped in
`try/except Exception` whose handler only prints, so the function never
raises: its result is always `Except.ok` (this is what claim C3 is about). -/
def add_documents (sys : EmbeddingsSystem) (docs : List Document) :
    Except PyError EmbeddingsSystem :=
  if docs.isEmpty then .ok sys
  else
    let all_chunks := (docs.map Document.chunks).flatten.map Chunk.content
    let all_metadata := (docs.map Document.chunks).flatten.map Chunk.metadata
    if all_chunks.isEmpty then .ok sys
    else
      match (generate_embeddings sys all_chunks).bind
          (fun e => add_to_faiss sys e all_metadata) with
      | .ok sys' => .ok sys'
      | .error _ => .ok sys

/-- A search result dict (`content`, `metadata`, `score`). -/
structure SearchResult where
  content : String
  metadata : Metadata
  score : ℝ

/-- Model of `EmbeddingsSystem._search_faiss` (lines 273-307): returns `[]` when the
index is missing; otherwise normalizes the query embedding by its own norm,
asks FAISS for `min(top_k, len(chunk_metadata))` results, and builds result
dicts whose `content` is `chunk_metadata[idx].get('content', '')`. -/
def search_faiss (sys : EmbeddingsSystem) (query_embedding : List ℝ)
    (top_k : Nat) : List SearchResult :=
  match sys.vector_db with
  | none => []
  | some db =>
    let query_normalized := query_embedding.map (fun x => x / l2norm query_embedding)
    let pairs := faissSearch db query_normalized (min top_k sys.chunk_metadata.length)
    (pairs.filter (fun p => p.2 < sys.chunk_metadata.length)).map
      (fun p =>
        { content := (sys.chunk_metadata.getD p.2 []).getStrD "content" ""
          metadata := sys.chunk_metadata.getD p.2 []
          score := p.1 })

/-- Model of `EmbeddingsSystem.search` (lines 247-271): raises `RuntimeError` when the
model is missing; otherwise embeds the query and searches FAISS, catching any
exception from that step into an empty result list. -/
def search (sys : EmbeddingsSystem) (query : String) (top_k : Nat) :
    Except PyError (List SearchResult) :=
  match sys.model with
  | none => .error (.runtimeError "Embedding model not initialized")
  | some _ =>
    match generate_embeddings sys [query] with
    | .error _ => .ok []
    | .ok rows => .ok (search_faiss sys (rows.headD []) top_k)

/-- The two persistence artifacts written by `_save_faiss` under one base
path: the FAISS index file and the pickled
`{chunk_embeddings, chunk_metadata}` blob. -/
structure SavedDB where
  faiss_index : List (List ℝ)
  chunk_embeddings : List (List ℝ)
  chunk_metadata : List Metadata

/-- Model of `EmbeddingsSystem.save_database` / `_save_faiss` (lines 312-343): writes
nothing when the index is missing; otherwise serializes the index and the
parallel lists. -/
def save_database (sys : EmbeddingsSystem) : Option SavedDB :=
  sys.vector_db.map (fun db =>
    { faiss_index := db
      chunk_embeddings := sys.chunk_embeddings
      chunk_metadata := sys.chunk_metadata })

/-- Model of `EmbeddingsSystem.load_database` / `_load_faiss` (lines 345-370):
`faiss.read_index` runs first, so when the artifacts are absent the raised
exception is caught and the state is left unchanged; otherwise the index and
both parallel lists are restored. -/
def load_database (sys : EmbeddingsSystem) (file : Option SavedDB) :
    EmbeddingsSystem :=
  match file with
  | none => sys
  | some d =>
    { sys with
      vector_db := some d.faiss_index
      chunk_embeddings := d.chunk_embeddings
      chunk_metadata := d.chunk_metadata }

end

/-! ## Document processor chunk records
(`DocumentProcessor.process_document`, src/document_processor.py lines
197-218).  File parsing (`load_document`) is an external collaborator; the
modelled part starts from the extracted text content and document
metadata. -/

/-- Model of `DocumentProcessor.process_document` chunk-record construction: chunk the
document text, then pair each chunk with the document metadata extended by
`chunk_index` and `total_chunks` (the document metadata produced by the
loaders has keys `source`, `type`, `filename`, ..., all distinct from the two
added keys, so list append models the dict merge).  Note the chunk text
itself is **not** placed into the metadata dict.  Fuelled through
`chunk_text`. -/
def process_document (content : String) (docMetadata : Metadata)
    (chunk_size chunk_overlap fuel : Nat) : Option Document :=
  (chunk_text content chunk_size chunk_overlap fuel).map (fun chunks =>
    ⟨chunks.enum.map (fun p =>
      { content := p.2
        chunk_id := some p.1
        metadata := docMetadata ++
          [("chunk_index", MetaVal.nat p.1),
           ("total_chunks", MetaVal.nat chunks.length)] })⟩)

/-! ## Prompt manager (`PromptManager`, src/prompts.py)

String templates that the code fills via `str.format` are modelled as lists
of literal/placeholder segments; `formatSegs` is Python `format` with keyword
arguments, raising `KeyError` on a placeholder with no matching argument. -/

/-- A segment of a format template: literal text or a `{key}` placeholder. -/
inductive Seg where
  | lit (s : String)
  | ph (k : String)
deriving DecidableEq, Repr

/-- Python `template.format(**args)`: placeholders replaced by their
arguments; a placeholder whose key has no argument raises `KeyError`. -/
def formatSegs : List Seg → List (String × String) → Except PyError String
  | [], _ => .ok ""
  | Seg.lit s :: rest, args => (formatSegs rest args).map (fun t => s ++ t)
  | Seg.ph k :: rest, args =>
    match args.find? (fun p => p.1 == k) with
    | some q => (formatSegs rest args).map (fun t => q.2 ++ t)
    | none => .error (.keyError k)

/-- A conversation turn as appended by
`PromptManager.add_to_conversation_history`
(the code always stores `timestamp: None`). -/
structure Turn where
  user : String
  agent : String
  timestamp : Option Nat := none
deriving DecidableEq, Repr

/-- Model of `PromptManager.add_to_conversation_history` (prompts.py lines 208-218):
append the turn, then keep only the last 10 turns. -/
def add_to_conversation_history (history : List Turn)
    (user_message agent_response : String) : List Turn :=
  let h := history ++ [{ user := user_message, agent := agent_response }]
  if h.length > 10 then h.drop (h.length - 10) else h

/-- The lines contributed by one enumerated turn in
`PromptManager.get_conversation_context`. -/
def turnLines (p : Nat × Turn) : List String :=
  ["Turn " ++ toString (p.1 + 1) ++ ":",
   "User: " ++ p.2.user,
   "Agent: " ++ p.2.agent,
   ""]

/-- Model of `PromptManager.get_conversation_context` (prompts.py lines 220-232):
fixed text for an empty history, otherwise the last 5 turns formatted. -/
def get_conversation_context (history : List Turn) : String :=
  if history.isEmpty then "This is the start of our conversation."
  else
    String.intercalate "\n"
      (((history.drop (history.length - 5)).enum.map turnLines).flatten)

/-- Model of `PromptTemplates.DOCUMENT_UPLOAD_PROMPT` (prompts.py lines 95-104). -/
def DOCUMENT_UPLOAD_PROMPT : String :=
  "I notice you haven\x27t uploaded any personal documents yet. To provide accurate, personalized responses about you, I need some documents to work with.\n\nPlease upload:\n- Your CV/resume (PDF or Word format)\n- Any blog posts or articles you\x27ve written\n- README files from your projects\n- Personal notes about your work style and values\n- Any other relevant documents\n\nOnce you upload documents, I\x27ll be able to answer questions about your experience, skills, and background in your authentic voice."

/-- Model of `PromptManager.get_system_prompt` (prompts.py lines 149-154):
`BASE_SYSTEM_PROMPT` with both placeholders filled (both arguments are always
supplied, so the `format` call is plain interpolation). -/
def get_system_prompt (conversation_context relevant_context : String) : String :=
  "You are a Personal Codex Agent - an AI assistant that represents me authentically based on my personal documents and experiences. \n\nYour responses should reflect my actual personality, communication style, values, and experiences as documented in my personal materials. You are NOT a generic AI - you are specifically trained on my personal data to represent me accurately.\n\nKey principles:\n- Always base your responses on the specific information from my documents\n- Maintain my authentic voice and communication style\n- Be honest about what you know and don\x27t know from my materials\n- When referencing information, cite the specific source document\n- If asked about something not in my documents, say so rather than making things up\n\nCurrent conversation context: " ++
  conversation_context ++
  "\n\nAvailable relevant information from my documents:\n" ++
  relevant_context ++
  "\n\nPlease respond in the specified mode and style."

/-- Model of `PromptManager.get_mode_prompt` (prompts.py lines 156-166): the
mode-specific instruction block with the user question interpolated; unknown
modes default to the interview block. -/
def get_mode_prompt (mode : String) (user_question : String) : String :=
  if mode == "personal_storytelling" then
    "PERSONAL STORYTELLING MODE: You are sharing personal experiences and insights in a reflective, narrative style.\n\nStyle guidelines:\n- Reflective and detailed\n- Share personal stories and experiences\n- Show personality, values, and growth\n- Use descriptive language and examples\n- Connect experiences to broader insights\n- Be authentic and vulnerable when appropriate\n- Aim for 4-6 sentences to provide rich context\n\nQuestion: " ++
    user_question ++
    "\n\nPlease share a personal, reflective response based on my documented experiences and values."
  else if mode == "fast_facts" then
    "FAST FACTS MODE: You are providing quick, scannable information in a concise format.\n\nStyle guidelines:\n- Bullet points or numbered lists\n- Key facts and highlights only\n- Quick reference format\n- No lengthy explanations\n- Easy to scan and digest\n- Focus on most important information\n- Keep each point to 1-2 sentences max\n\nQuestion: " ++
    user_question ++
    "\n\nPlease provide a fast facts response with key information from my documents."
  else
    "INTERVIEW MODE: You are representing me in a professional context (job interview, networking, professional meeting).\n\nStyle guidelines:\n- Professional and concise\n- Focus on skills, experience, and achievements\n- Use specific examples and metrics when available\n- Maintain confidence while being authentic\n- Structure responses clearly with key points\n- Keep responses under 3-4 sentences unless more detail is specifically requested\n\nQuestion: " ++
    user_question ++
    "\n\nPlease provide a professional, interview-appropriate response based on my documented experience."

/-- Model of `PromptManager.format_response_with_sources` (prompts.py lines 189-198). -/
def format_response_with_sources (response : String) (sources : List String) :
    String :=
  if sources.isEmpty then response
  else
    response ++ "\n\nSources:\n" ++
      String.intercalate "\n" (sources.map (fun s => "- " ++ s))

noncomputable section

/-- Model of `PromptManager.format_context` (prompts.py lines 168-187): each result
rendered with source filename, score and content truncated to 300
characters.  The decimal rendering of the float score (`{score:.2f}`) is not
expressible over exact reals and is taken as the parameter `scoreRepr`; no
claim depends on the rendered prompt text. -/
def format_context (scoreRepr : ℝ → String)
    (search_results : List SearchResult) : String :=
  if search_results.isEmpty then "No relevant context found."
  else
    String.intercalate "\n" (search_results.map (fun r =>
      let content :=
        if r.content.length > 300 then r.content.take 300 ++ "..." else r.content
      "Source: " ++ r.metadata.getStrD "filename" "Unknown source" ++
      "\nRelevance Score: " ++ scoreRepr r.score ++
      "\nContent: " ++ content ++ "\n\n---"))

/-! ## Agent (`PersonalCodexAgent`, src/agent.py) -/

/-- One entry of the `self.modes` configuration dict
(agent.py lines 107-123). -/
structure ModeInfo where
  name : String
  description : String
  max_tokens : Nat
deriving DecidableEq, Repr

/-- The fixed `self.modes` dict (agent.py lines 107-123). -/
def modes : List (String × ModeInfo) :=
  [("interview",
    ⟨"Interview Mode",
     "Professional, concise responses for job interviews and networking",
     150⟩),
   ("personal_storytelling",
    ⟨"Personal Storytelling Mode",
     "Reflective, narrative responses that showcase personality",
     300⟩),
   ("fast_facts",
    ⟨"Fast Facts Mode",
     "Quick, scannable information in bullet-point format",
     200⟩)]

/-- Model of `self.modes[mode]["max_tokens"]`; the code only evaluates this with
`current_mode` in the mode set (the initial mode is `interview` and
`switch_mode` refuses unknown keys), so the out-of-set default is
irrelevant. -/
def maxTokensOf (mode : String) : Nat :=
  match modes.find? (fun p => p.1 == mode) with
  | some p => p.2.max_tokens
  | none => 0

/-- A response dict as built by the `_generate_*_response` methods:
`response`, `sources`, `mode`, `confidence`. -/
structure ResponseDict where
  response : String
  sources : List String
  mode : String
  confidence : String

/-- The state of `PersonalCodexAgent` touched by the embedded methods.  The
LLM clients are opaque capabilities
`(full_prompt, user_question, max_tokens) → text or failure`; `pm_history` is
the `PromptManager.conversation_history` the agent appends to. -/
structure Agent where
  openai_client : Option (String → String → Nat → Except String String)
  anthropic_client : Option (String → String → Nat → Except String String)
  embeddings_system : EmbeddingsSystem
  pm_history : List Turn
  current_mode : String
  documents_loaded : Bool
  knowledge_base_initialized : Bool

/-- Model of `PersonalCodexAgent.switch_mode` (agent.py lines 257-274): unknown keys
leave the state unchanged and return an "Unknown mode" message; known keys
update `current_mode` and return a confirmation naming the mode. -/
def switch_mode (ag : Agent) (new_mode : String) : Agent × String :=
  match modes.find? (fun p => p.1 == new_mode) with
  | none =>
    (ag,
     "Unknown mode: " ++ new_mode ++ ". Available modes: " ++
       String.intercalate ", " (modes.map (fun p => p.1)))
  | some p =>
    ({ ag with current_mode := new_mode },
     "Switched to " ++ p.2.name ++ ": " ++ p.2.description)

/-- Model of `PersonalCodexAgent.search_knowledge_base` (agent.py lines 284-303):
short-circuits to `[]` when the knowledge base was never initialized,
otherwise delegates to `EmbeddingsSystem.search` and swallows its errors
into `[]`. -/
def search_knowledge_base (ag : Agent) (query : String) (top_k : Nat) :
    List SearchResult :=
  if ag.knowledge_base_initialized = false then []
  else
    match search ag.embeddings_system query top_k with
    | .ok results => results
    | .error _ => []

/-- The fixed no-results message of `_generate_fallback_response`
(agent.py line 465). -/
def NO_INFO_RESPONSE : String :=
  "I don\x27t have enough information to answer that question accurately. Please ask me something more specific about my documented experience."

/-- The per-mode fallback templates of `_generate_fallback_response`
(agent.py lines 472-476), with their placeholders. -/
def mode_templates (mode : String) : List Seg :=
  if mode == "interview" then
    [.lit "Based on my experience, I can tell you that ", .ph "context",
     .lit ". This demonstrates my ", .ph "skill", .lit " and ",
     .ph "achievement", .lit "."]
  else if mode == "personal_storytelling" then
    [.lit "From my personal experience, I remember ", .ph "context",
     .lit ". This taught me ", .ph "lesson",
     .lit " and shaped my approach to ", .ph "topic", .lit "."]
  else if mode == "fast_facts" then
    [.lit "Key points about this:\n• ", .ph "context", .lit "\n• ",
     .ph "skill", .lit "\n• ", .ph "achievement"]
  else
    [.lit "Based on my experience, I can tell you that ", .ph "context",
     .lit ". This demonstrates my ", .ph "skill", .lit " and ",
     .ph "achievement", .lit "."]

/-- The source list built by every `_generate_*_response` method:
`result.get('metadata', {}).get('filename', 'Unknown')` per result. -/
def responseSources (search_results : List SearchResult) : List String :=
  search_results.map (fun r => r.metadata.getStrD "filename" "Unknown")

/-- Model of `PersonalCodexAgent._generate_fallback_response` (agent.py lines
455-492): with no results, a fixed low-confidence message; otherwise the
per-mode template is `format`ted with arguments `context`, `skill`,
`achievement` only — a template placeholder outside these three raises
`KeyError`. -/
def generate_fallback_response (ag : Agent) (user_question : String)
    (search_results : List SearchResult) : Except PyError ResponseDict :=
  if search_results.isEmpty then
    .ok { response := NO_INFO_RESPONSE
          sources := []
          mode := ag.current_mode
          confidence := "low" }
  else
    let context := (search_results.headD ⟨"", [], 0⟩).content.take 100 ++ "..."
    (formatSegs (mode_templates ag.current_mode)
        [("context", context), ("skill", "relevant skills"),
         ("achievement", "professional achievements")]).map
      (fun text =>
        { response := text
          sources := responseSources search_results
          mode := ag.current_mode
          confidence := "medium" })

/-- Model of `PersonalCodexAgent._generate_openai_response` (agent.py lines 391-424):
invoke the client; on success package the text with confidence `high` when
results are nonempty, `medium` otherwise; on failure fall back (an exception
raised by the fallback itself propagates). -/
def generate_openai_response
    (call : String → String → Nat → Except String String) (ag : Agent)
    (full_prompt user_question : String)
    (search_results : List SearchResult) : Except PyError ResponseDict :=
  match call full_prompt user_question (maxTokensOf ag.current_mode) with
  | .ok text =>
    .ok { response := text
          sources := responseSources search_results
          mode := ag.current_mode
          confidence := if search_results.isEmpty then "medium" else "high" }
  | .error _ => generate_fallback_response ag user_question search_results

/-- Model of `PersonalCodexAgent._generate_anthropic_response` (agent.py lines
426-453): identical packaging to the OpenAI path. -/
def generate_anthropic_response
    (call : String → String → Nat → Except String String) (ag : Agent)
    (full_prompt user_question : String)
    (search_results : List SearchResult) : Except PyError ResponseDict :=
  match call full_prompt user_question (maxTokensOf ag.current_mode) with
  | .ok text =>
    .ok { response := text
          sources := responseSources search_results
          mode := ag.current_mode
          confidence := if search_results.isEmpty then "medium" else "high" }
  | .error _ => generate_fallback_response ag user_question search_results

/-- Model of `PersonalCodexAgent._generate_llm_response` (agent.py lines 357-389):
build the two-part prompt and dispatch on the available client; when neither
client exists the Python function falls off the `try` body and returns
`None`.  The surrounding `try/except Exception` catches any exception from
the dispatched call — including a `KeyError` escaping the OpenAI branch's own
fallback — and calls the fallback once more, whose own exception then
propagates. -/
def generate_llm_response (scoreRepr : ℝ → String) (ag : Agent)
    (user_question : String) (search_results : List SearchResult) :
    Except PyError (Option ResponseDict) :=
  let conversation_context := get_conversation_context ag.pm_history
  let relevant_context := format_context scoreRepr search_results
  let system_prompt := get_system_prompt conversation_context relevant_context
  let mode_prompt := get_mode_prompt ag.current_mode user_question
  let full_prompt := system_prompt ++ "\n\n" ++ mode_prompt
  let body : Except PyError (Option ResponseDict) :=
    match ag.openai_client with
    | some call =>
      (generate_openai_response call ag full_prompt user_question
        search_results).map some
    | none =>
      match ag.anthropic_client with
      | some call =>
        (generate_anthropic_response call ag full_prompt user_question
          search_results).map some
      | none => .ok none
  match body with
  | .ok r => .ok r
  | .error _ =>
    (generate_fallback_response ag user_question search_results).map some

/-- Model of `PersonalCodexAgent.generate_response` (agent.py lines 305-355): the
no-documents short-circuit, retrieval, LLM-or-fallback dispatch, history
append, and optional source formatting.  The returned pair is the updated
agent state and the response dict; a Python exception escaping the body is an
`Except.error` (the `.ok none` result of `_generate_llm_response` — possible
only when no client exists, a case the dispatch guard excludes — would be the
`TypeError` of subscripting `None`). -/
def generate_response (scoreRepr : ℝ → String) (ag : Agent)
    (user_question : String) (include_sources : Bool) :
    Except PyError (Agent × ResponseDict) :=
  if ag.documents_loaded = false then
    .ok (ag,
      { response := DOCUMENT_UPLOAD_PROMPT
        sources := []
        mode := ag.current_mode
        confidence := "low" })
  else
    let search_results := search_knowledge_base ag user_question 5
    let respE : Except PyError ResponseDict :=
      if ag.openai_client.isSome || ag.anthropic_client.isSome then
        match generate_llm_response scoreRepr ag user_question search_results with
        | .ok (some r) => .ok r
        | .ok none => .error (.typeError "NoneType object is not subscriptable")
        | .error e => .error e
      else
        generate_fallback_response ag user_question search_results
    respE.bind (fun resp =>
      let ag' := { ag with
        pm_history :=
          add_to_conversation_history ag.pm_history user_question resp.response }
      let resp' :=
        if include_sources && !resp.sources.isEmpty then
          { resp with
            response := format_response_with_sources resp.response resp.sources }
        else resp
      .ok (ag', resp'))

/-- Sequential `generate_response` calls (with sources included, the default),
threading the agent state; stops at the first escaping exception. -/
def runQueries (scoreRepr : ℝ → String) (ag : Agent) (qs : List String) :
    Except PyError Agent :=
  qs.foldlM (fun a q => (generate_response scoreRepr a q true).map Prod.fst) ag

end

/-- The concrete chunker input witnessing claim C4's failure:
`chunk_size = 10`, `chunk_overlap = 5` (a valid configuration:
`chunk_size > 0`, `0 ≤ chunk_overlap < chunk_size`). -/
def c4text : List Char := "aaaa.bbbbbccccc".data

/-! ## Concrete states and inputs used in the claim theorems and witnesses -/

/-- A score-rendering function for instantiating the `scoreRepr` parameter in
concrete scenarios (the rendered text never influences the modelled
behavior). -/
def scoreRepr0 : ℝ → String := fun _ => "0.00"

/-- An `EmbeddingsSystem` whose model and FAISS index failed to initialize. -/
def sysEmpty : EmbeddingsSystem :=
  { model := none, vector_db := none, chunk_embeddings := [], chunk_metadata := [] }

/-- A freshly constructed `EmbeddingsSystem`: working state with an empty
FAISS index (model contents irrelevant here, taken as `none`). -/
def sysFresh : EmbeddingsSystem :=
  { model := none, vector_db := some [], chunk_embeddings := [], chunk_metadata := [] }

/-- A generic agent with no clients, no documents, empty history. -/
def agW : Agent :=
  { openai_client := none, anthropic_client := none,
    embeddings_system := sysEmpty, pm_history := [],
    current_mode := "interview", documents_loaded := false,
    knowledge_base_initialized := false }

/-- The agent family for the claim C6 scenario: no LLM clients (so every
turn takes the deterministic fallback), documents loaded, knowledge base not
initialized (so retrieval deterministically returns `[]`), history `h`. -/
def agC6 (h : List Turn) : Agent :=
  { openai_client := none, anthropic_client := none,
    embeddings_system := sysEmpty, pm_history := h,
    current_mode := "interview", documents_loaded := true,
    knowledge_base_initialized := false }

/-- Claim C1 scenario: the embedding capability, sending `"First chunk"` to
`[1, 0]` and any other text to `[0, 1]`. -/
noncomputable def embedC1 : List String → Except String (List (List ℝ)) :=
  fun texts =>
    .ok (texts.map (fun t => if t == "First chunk" then [1, 0] else [0, 1]))

/-- Claim C1 scenario: the chunk metadata `process_document` builds for the
single chunk of document `a.txt`. -/
def mdA : Metadata :=
  [("filename", MetaVal.str "a.txt"),
   ("chunk_index", MetaVal.nat 0), ("total_chunks", MetaVal.nat 1)]

/-- Claim C1 scenario: the chunk metadata for the single chunk of
`b.txt`. -/
def mdB : Metadata :=
  [("filename", MetaVal.str "b.txt"),
   ("chunk_index", MetaVal.nat 0), ("total_chunks", MetaVal.nat 1)]

/-- Claim C1 scenario: the processed document for `a.txt`. -/
def docA : Document :=
  ⟨[{ content := "First chunk", metadata := mdA, chunk_id := some 0 }]⟩

/-- Claim C1 scenario: the processed document for `b.txt`. -/
def docB : Document :=
  ⟨[{ content := "Second chunk", metadata := mdB, chunk_id := some 0 }]⟩

/-- Claim C1 scenario: the freshly initialized embeddings system. -/
noncomputable def sysC1 : EmbeddingsSystem :=
  { model := some embedC1, vector_db := some [],
    chunk_embeddings := [], chunk_metadata := [] }

/-- Claim C1 scenario: the embeddings system state after
`add_documents sysC1 [docA, docB]`. -/
noncomputable def sysC1' : EmbeddingsSystem :=
  { model := some embedC1, vector_db := some [[1, 0], [0, 1]],
    chunk_embeddings := [[1, 0], [0, 1]], chunk_metadata := [mdA, mdB] }

/-- Claim C3 counterexample: an embeddings system whose embedding capability
fails. -/
noncomputable def sysFail : EmbeddingsSystem :=
  { model := some (fun _ => .error "model crashed"),
    vector_db := some [], chunk_embeddings := [], chunk_metadata := [] }

/-- Claim C3 counterexample: a nonempty processed document. -/
def docF : Document :=
  ⟨[{ content := "x", metadata := [("filename", MetaVal.str "f.txt")] }]⟩

/-- Claim C2 scenario: an embeddings system holding one indexed chunk whose
metadata (as built by the document processor) has a `filename` but no
`content` key; the embedding capability sends every text to `[1, 0]`. -/
noncomputable def sysStory : EmbeddingsSystem :=
  { model := some (fun texts => .ok (texts.map (fun _ => [1, 0]))),
    vector_db := some [[1, 0]], chunk_embeddings := [[1, 0]],
    chunk_metadata := [[("filename", MetaVal.str "a.txt")]] }

/-- Claim C2 scenario: an agent in `personal_storytelling` mode with
documents loaded, one indexed chunk, and an OpenAI-slot client whose call
fails (e.g. the `MockLLMClient`, which lacks the `chat.completions.create`
attribute the code invokes). -/
noncomputable def agStory : Agent :=
  { openai_client := some (fun _ _ _ => .error "AttributeError: no attribute chat"),
    anthropic_client := none,
    embeddings_system := sysStory, pm_history := [],
    current_mode := "personal_storytelling", documents_loaded := true,
    knowledge_base_initialized := true }

/-- Claim C5 counterexample: an agent with documents loaded, a succeeding
generation client, and no initialized knowledge base (so retrieval returns
no results). -/
noncomputable def agC5 : Agent :=
  { openai_client := some (fun _ _ _ => .ok "An answer."),
    anthropic_client := none,
    embeddings_system := sysEmpty, pm_history := [],
    current_mode := "interview", documents_loaded := true,
    knowledge_base_initialized := false }

theorem c4_chunkStep_fixed : chunkStep c4text 10 5 0 = (0, some "aaaa.".data) := by
  decide

theorem c4_stall : ∀ fuel chunks, chunkLoop c4text 10 5 fuel 0 chunks = none := by
  intro fuel
  induction fuel with
  | zero => intro chunks; rfl
  | succ n ih =>
    intro chunks
    rw [chunkLoop, c4_chunkStep_fixed]
    simp only [if_pos (by decide : (0 : Int) < (c4text.length : Int))]
    rw [if_neg (by decide : ¬ ((0 : Int) ≥ (c4text.length : Int)))]
    exact ih _

/-! ## Helper lemmas -/

theorem strContains_of_take (s pat : String)
    (h : (s.data.take pat.data.length == pat.data) = true) :
    strContains s pat = true := by
  unfold strContains containsSub
  apply List.any_eq_true.mpr
  exact ⟨0, List.mem_range.mpr (Nat.succ_pos _), by simpa using h⟩

theorem unknown_mode_msg_contains (m s1 s2 : String) :
    strContains ("Unknown mode: " ++ m ++ s1 ++ s2) "Unknown mode" = true := by
  apply strContains_of_take
  have hd : ("Unknown mode: " ++ m ++ s1 ++ s2).data
      = "Unknown mode: ".data ++ (m.data ++ (s1.data ++ s2.data)) := by
    simp [List.append_assoc]
  rw [hd, List.take_append_of_le_length (by decide)]
  decide

theorem generate_embeddings_congr (s1 s2 : EmbeddingsSystem)
    (hm : s1.model = s2.model) (texts : List String) :
    generate_embeddings s1 texts = generate_embeddings s2 texts := by
  unfold generate_embeddings
  rw [hm]

theorem search_faiss_congr (s1 s2 : EmbeddingsSystem) (qe : List ℝ) (k : Nat)
    (h1 : s1.vector_db = s2.vector_db) (h2 : s1.chunk_metadata = s2.chunk_metadata) :
    search_faiss s1 qe k = search_faiss s2 qe k := by
  unfold search_faiss
  rw [h1, h2]

theorem search_congr (s1 s2 : EmbeddingsSystem) (q : String) (k : Nat)
    (hm : s1.model = s2.model) (h1 : s1.vector_db = s2.vector_db)
    (h2 : s1.chunk_metadata = s2.chunk_metadata) :
    search s1 q k = search s2 q k := by
  unfold search
  rw [hm, generate_embeddings_congr s1 s2 hm]
  cases s2.model with
  | none => rfl
  | some encode =>
    cases generate_embeddings s2 [q] with
    | error e => rfl
    | ok rows =>
      simp only
      rw [search_faiss_congr s1 s2 (rows.headD []) k h1 h2]

theorem search_faiss_of_none (s : EmbeddingsSystem) (qe : List ℝ) (k : Nat)
    (h : s.vector_db = none) : search_faiss s qe k = [] := by
  simp [search_faiss, h]

theorem search_faiss_of_fresh (s : EmbeddingsSystem) (qe : List ℝ) (k : Nat)
    (hdb : s.vector_db = some []) (hmd : s.chunk_metadata = []) :
    search_faiss s qe k = [] := by
  simp [search_faiss, hdb, hmd, faissSearch, sortDesc]

theorem add_hist_eq (h : List Turn) (u a : String) :
    add_to_conversation_history h u a
      = (h ++ [({ user := u, agent := a, timestamp := none } : Turn)]).drop
          ((h.length + 1) - 10) := by
  unfold add_to_conversation_history
  by_cases hl : (h ++ [({ user := u, agent := a } : Turn)]).length > 10
  · rw [if_pos hl]
    congr 1
    simp [List.length_append]
  · rw [if_neg hl]
    have h0 : (h.length + 1) - 10 = 0 := by
      simp only [List.length_append, List.length_cons, List.length_nil] at hl
      omega
    rw [h0, List.drop_zero]

theorem add_hist_length (h : List Turn) (u a : String) :
    (add_to_conversation_history h u a).length = min (h.length + 1) 10 := by
  rw [add_hist_eq]
  simp only [List.length_drop, List.length_append, List.length_cons,
    List.length_nil]
  omega

theorem foldl_add_hist (msg : String) : ∀ (qs : List String) (h : List Turn),
    h.length ≤ 10 →
    List.foldl (fun acc q => add_to_conversation_history acc q msg) h qs
      = (h ++ qs.map (fun q => ({ user := q, agent := msg, timestamp := none } : Turn))).drop
          ((h.length + qs.length) - 10) := by
  intro qs
  induction qs with
  | nil =>
    intro h hL
    simp only [List.foldl_nil, List.map_nil, List.append_nil, List.length_nil]
    rw [show h.length + 0 - 10 = 0 by omega, List.drop_zero]
  | cons q qs ih =>
    intro h hL
    rw [List.foldl_cons, ih _ (by rw [add_hist_length]; omega), add_hist_eq]
    rw [← List.drop_append_of_le_length (by simp [List.length_append]; omega)]
    rw [List.drop_drop, List.append_assoc, List.singleton_append]
    congr 1
    simp only [List.length_drop, List.length_append, List.length_cons,
      List.length_nil, List.length_map, List.map_cons]
    omega

theorem generate_response_agC6 (sr : ℝ → String) (h : List Turn) (q : String) :
    generate_response sr (agC6 h) q true =
      .ok (agC6 (add_to_conversation_history h q NO_INFO_RESPONSE),
        { response := NO_INFO_RESPONSE, sources := [], mode := "interview",
          confidence := "low" }) := by
  simp [generate_response, agC6, search_knowledge_base,
    generate_fallback_response, Except.bind]

theorem runQueries_agC6 (sr : ℝ → String) : ∀ (qs : List String) (h : List Turn),
    runQueries sr (agC6 h) qs =
      .ok (agC6 (List.foldl
        (fun acc q => add_to_conversation_history acc q NO_INFO_RESPONSE) h qs)) := by
  intro qs
  induction qs with
  | nil => intro h; rfl
  | cons q qs ih =>
    intro h
    unfold runQueries at ih ⊢
    rw [List.foldlM_cons, generate_response_agC6]
    exact ih _

theorem sumSq_cons (x : ℝ) (xs : List ℝ) : sumSq (x :: xs) = x * x + sumSq xs := by
  simp [sumSq]

theorem sumSq_nonneg (v : List ℝ) : 0 ≤ sumSq v := by
  induction v with
  | nil => simp [sumSq]
  | cons x xs ih =>
    rw [sumSq_cons]
    exact add_nonneg (mul_self_nonneg x) ih

theorem sumSq_map_div (v : List ℝ) (c : ℝ) :
    sumSq (v.map (fun x => x / c)) = sumSq v / (c * c) := by
  induction v with
  | nil => simp [sumSq]
  | cons x xs ih =>
    rw [List.map_cons, sumSq_cons, sumSq_cons, ih, div_mul_div_comm,
      div_add_div_same]

theorem l2norm_normalizeRow (v : List ℝ) (h : sumSq v ≠ 0) :
    l2norm (normalizeRow v) = 1 := by
  unfold normalizeRow
  unfold l2norm
  rw [sumSq_map_div, Real.mul_self_sqrt (sumSq_nonneg v), div_self h,
    Real.sqrt_one]

theorem dot_cons (x y : ℝ) (u v : List ℝ) :
    dot (x :: u) (y :: v) = x * y + dot u v := by
  simp [dot]

theorem dot_map_div (u : List ℝ) (a b : ℝ) : ∀ v : List ℝ,
    dot (u.map (fun x => x / a)) (v.map (fun x => x / b)) = dot u v / (a * b) := by
  induction u with
  | nil => intro v; simp [dot]
  | cons x xs ih =>
    intro v
    cases v with
    | nil => simp [dot]
    | cons y ys =>
      rw [List.map_cons, List.map_cons, dot_cons, dot_cons, ih ys,
        div_mul_div_comm, div_add_div_same]

theorem sumSq_e1 : sumSq [(1 : ℝ), 0] = 1 := by simp [sumSq]

theorem sumSq_e2 : sumSq [(0 : ℝ), 1] = 1 := by simp [sumSq]

theorem l2norm_e1 : l2norm [(1 : ℝ), 0] = 1 := by
  rw [l2norm, sumSq_e1, Real.sqrt_one]

theorem l2norm_e2 : l2norm [(0 : ℝ), 1] = 1 := by
  rw [l2norm, sumSq_e2, Real.sqrt_one]

theorem normalizeRow_e1 : normalizeRow [(1 : ℝ), 0] = [1, 0] := by
  unfold normalizeRow
  rw [l2norm_e1]
  simp

theorem normalizeRow_e2 : normalizeRow [(0 : ℝ), 1] = [0, 1] := by
  unfold normalizeRow
  rw [l2norm_e2]
  simp

theorem dot_e11 : dot [(1 : ℝ), 0] [(1 : ℝ), 0] = 1 := by simp [dot]

theorem dot_e10 : dot [(1 : ℝ), 0] [(0 : ℝ), 1] = 0 := by simp [dot]

theorem normalizeRow_def (v : List ℝ) :
    v.map (fun x => x / l2norm v) = normalizeRow v := rfl

theorem search_faiss_sysC1' :
    search_faiss sysC1' [(1 : ℝ), 0] 1
      = [{ content := "", metadata := mdA, score := 1 }] := by
  have hgd : ([mdA, mdB] : List Metadata).getD 0 [] = mdA := by decide
  have hgs : Metadata.getStrD mdA "content" "" = "" := by decide
  simp only [search_faiss, sysC1', normalizeRow_def, normalizeRow_e1]
  simp only [faissSearch, List.enum, List.enumFrom, List.map_cons, List.map_nil,
    dot_e11, dot_e10, sortDesc, List.foldl_cons, List.foldl_nil, insertDesc,
    List.length_cons, List.length_nil]
  norm_num [List.take, List.filter, List.map_cons, hgd, hgs]

theorem search_faiss_sysStory :
    search_faiss sysStory [(1 : ℝ), 0] 5
      = [{ content := "", metadata := [("filename", MetaVal.str "a.txt")],
           score := 1 }] := by
  have hgd : ([[("filename", MetaVal.str "a.txt")]] : List Metadata).getD 0 []
      = [("filename", MetaVal.str "a.txt")] := by decide
  have hgs : Metadata.getStrD [("filename", MetaVal.str "a.txt")] "content" ""
      = "" := by decide
  simp only [search_faiss, sysStory, normalizeRow_def, normalizeRow_e1]
  simp only [faissSearch, List.enum, List.enumFrom, List.map_cons, List.map_nil,
    dot_e11, sortDesc, List.foldl_cons, List.foldl_nil, insertDesc,
    List.length_cons, List.length_nil]
  norm_num [List.take, List.filter, hgd, hgs]

/-! ## Claim theorems -/

/-- C10: when no documents have ever been ingested, `generate_response`
returns the fixed upload-prompt response with confidence `low` and leaves the
agent state — conversation history, index, current mode — entirely
unchanged: the returned agent is the input agent. -/
theorem C10_no_documents_short_circuit (scoreRepr : ℝ → String) (ag : Agent)
    (q : String) (inc : Bool) (h : ag.documents_loaded = false) :
    generate_response scoreRepr ag q inc =
      .ok (ag, { response := DOCUMENT_UPLOAD_PROMPT, sources := [],
                 mode := ag.current_mode, confidence := "low" }) := by
  simp [generate_response, h]

/-- C10 witness: the short-circuit evaluated at a concrete agent with no
documents loaded. -/
theorem C10_witness :
    agW.documents_loaded = false ∧
    generate_response scoreRepr0 agW "Tell me about yourself" true =
      .ok (agW, { response := DOCUMENT_UPLOAD_PROMPT, sources := [],
                  mode := agW.current_mode, confidence := "low" }) :=
  ⟨rfl, C10_no_documents_short_circuit scoreRepr0 agW "Tell me about yourself" true rfl⟩

/-- C8: `switch_mode` with a key outside
`{interview, personal_storytelling, fast_facts}` returns a message containing
"Unknown mode" and leaves the agent (in particular `current_mode`) unchanged;
with a key in the set it updates `current_mode` and returns a confirmation
naming the mode and its description — in particular
`switch_mode "fast_facts"` returns a message containing "Fast Facts". -/
theorem C8_switch_mode (ag : Agent) (m : String)
    (h1 : m ≠ "interview") (h2 : m ≠ "personal_storytelling")
    (h3 : m ≠ "fast_facts") :
    (switch_mode ag m =
        (ag, "Unknown mode: " ++ m ++ ". Available modes: " ++
          "interview, personal_storytelling, fast_facts") ∧
      strContains (switch_mode ag m).2 "Unknown mode" = true) ∧
    switch_mode ag "interview" =
      ({ ag with current_mode := "interview" },
       "Switched to Interview Mode: Professional, concise responses for job interviews and networking") ∧
    switch_mode ag "personal_storytelling" =
      ({ ag with current_mode := "personal_storytelling" },
       "Switched to Personal Storytelling Mode: Reflective, narrative responses that showcase personality") ∧
    switch_mode ag "fast_facts" =
      ({ ag with current_mode := "fast_facts" },
       "Switched to Fast Facts Mode: Quick, scannable information in bullet-point format") ∧
    strContains (switch_mode ag "fast_facts").2 "Fast Facts" = true := by
  have e1 : (("interview" : String) == m) = false := by
    simp only [beq_eq_false_iff_ne, ne_eq]
    exact fun e => h1 e.symm
  have e2 : (("personal_storytelling" : String) == m) = false := by
    simp only [beq_eq_false_iff_ne, ne_eq]
    exact fun e => h2 e.symm
  have e3 : (("fast_facts" : String) == m) = false := by
    simp only [beq_eq_false_iff_ne, ne_eq]
    exact fun e => h3 e.symm
  have hfind : modes.find? (fun p => p.1 == m) = none := by
    simp [modes, List.find?, e1, e2, e3]
  have hmsg : switch_mode ag m =
      (ag, "Unknown mode: " ++ m ++ ". Available modes: " ++
        "interview, personal_storytelling, fast_facts") := by
    unfold switch_mode
    rw [hfind]
    rfl
  refine ⟨⟨hmsg, ?_⟩, rfl, rfl, rfl, ?_⟩
  · rw [hmsg]
    exact unknown_mode_msg_contains m ". Available modes: "
      "interview, personal_storytelling, fast_facts"
  · show strContains
      "Switched to Fast Facts Mode: Quick, scannable information in bullet-point format"
      "Fast Facts" = true
    decide

/-- C8 witness: `switch_mode` evaluated at the concrete unknown key
`"nonexistent"` on a concrete agent. -/
theorem C8_witness :
    ("nonexistent" ≠ "interview" ∧ "nonexistent" ≠ "personal_storytelling" ∧
      "nonexistent" ≠ "fast_facts") ∧
    (switch_mode agW "nonexistent" =
      (agW, "Unknown mode: " ++ "nonexistent" ++ ". Available modes: " ++
        "interview, personal_storytelling, fast_facts") ∧
      strContains (switch_mode agW "nonexistent").2 "Unknown mode" = true) ∧
    switch_mode agW "fast_facts" =
      ({ agW with current_mode := "fast_facts" },
       "Switched to Fast Facts Mode: Quick, scannable information in bullet-point format") := by
  have h := C8_switch_mode agW "nonexistent" (by decide) (by decide) (by decide)
  exact ⟨⟨by decide, by decide, by decide⟩, h.1, h.2.2.2.1⟩

/-- C3 (amended): when the embedding capability fails during
`add_documents`, no vector and no metadata entry is added (the state is
returned unchanged, so the vector store and metadata store stay in sync),
but the exception is caught and logged inside `add_documents` — the call
returns normally (`Except.ok`), so no error reaches the caller. -/
theorem C3_add_documents_failure (sys : EmbeddingsSystem)
    (docs : List Document) (err : PyError)
    (h : generate_embeddings sys
        ((docs.map Document.chunks).flatten.map Chunk.content) = .error err) :
    add_documents sys docs = .ok sys := by
  simp only [add_documents]
  by_cases hd : docs.isEmpty
  · rw [if_pos hd]
  · rw [if_neg hd]
    by_cases hc : ((docs.map Document.chunks).flatten.map Chunk.content).isEmpty
    · rw [if_pos hc]
    · rw [if_neg hc, h]
      rfl

/-- C3 witness: the amended statement evaluated at the concrete failing
system and document. -/
theorem C3_witness :
    generate_embeddings sysFail
        (([docF].map Document.chunks).flatten.map Chunk.content) =
      .error (.embeddingGenerationError "Failed to generate embeddings: model crashed") ∧
    add_documents sysFail [docF] = .ok sysFail :=
  ⟨rfl, C3_add_documents_failure sysFail [docF]
    (.embeddingGenerationError "Failed to generate embeddings: model crashed") rfl⟩

/-- C3 counterexample: the claim as stated requires the embedding failure to
be surfaced to the caller of `add_documents`; on the concrete failing system
the call instead returns normally (`Except.ok` with the state unchanged) —
the exception is caught and only logged, never re-raised. -/
theorem C3_counterexample :
    add_documents sysFail [docF] = .ok sysFail ∧
    ∀ e : PyError, add_documents sysFail [docF] ≠ .error e := by
  have h : add_documents sysFail [docF] = .ok sysFail := rfl
  exact ⟨h, fun e he => by rw [h] at he; exact Except.noConfusion he⟩

/-- C6: the conversation history is bounded at 10 turns with FIFO eviction:
`add_to_conversation_history` appends the turn `{user, agent}` and keeps only
the newest 10 (the general drop formula), and after 12 sequential
`generate_response` calls (on an agent whose every turn takes the
deterministic fallback path) the history has length 10 and contains exactly
the 10 most recent turns in order. -/
theorem C6_history_bounded :
    (∀ (h : List Turn) (u a : String),
      add_to_conversation_history h u a
        = (h ++ [({ user := u, agent := a, timestamp := none } : Turn)]).drop
            ((h.length + 1) - 10)) ∧
    ∀ (sr : ℝ → String) (qs : List String), qs.length = 12 →
      (runQueries sr (agC6 []) qs).map Agent.pm_history
          = .ok ((qs.map (fun q =>
              ({ user := q, agent := NO_INFO_RESPONSE, timestamp := none } : Turn))).drop 2)
        ∧ ((qs.map (fun q =>
              ({ user := q, agent := NO_INFO_RESPONSE, timestamp := none } : Turn))).drop 2).length
            = 10 := by
  refine ⟨add_hist_eq, fun sr qs hlen => ⟨?_, by simp [hlen]⟩⟩
  rw [runQueries_agC6, foldl_add_hist NO_INFO_RESPONSE qs [] (by simp)]
  simp [agC6, hlen, Except.map]

/-- C6 witness: 12 concrete sequential calls. -/
theorem C6_witness :
    (["q01", "q02", "q03", "q04", "q05", "q06", "q07", "q08", "q09", "q10",
      "q11", "q12"] : List String).length = 12 ∧
    (runQueries scoreRepr0 (agC6 [])
        ["q01", "q02", "q03", "q04", "q05", "q06", "q07", "q08", "q09", "q10",
         "q11", "q12"]).map Agent.pm_history
      = .ok (((["q01", "q02", "q03", "q04", "q05", "q06", "q07", "q08", "q09",
          "q10", "q11", "q12"] : List String).map (fun q =>
            ({ user := q, agent := NO_INFO_RESPONSE, timestamp := none } : Turn))).drop 2) :=
  ⟨rfl, (C6_history_bounded.2 scoreRepr0
    ["q01", "q02", "q03", "q04", "q05", "q06", "q07", "q08", "q09", "q10",
     "q11", "q12"] rfl).1⟩

/-- C7: every vector in the FAISS index after a successful `_add_to_faiss`
has L2 norm exactly 1 (hence within 1e-6), provided the incoming rows are
nonzero and the rows already present are unit; the query vector in
`_search_faiss` is normalized by the same `normalizeRow` operation; and the
inner product of normalized vectors equals cosine similarity. -/
theorem C7_unit_vectors :
    (∀ v : List ℝ, sumSq v ≠ 0 → l2norm (normalizeRow v) = 1) ∧
    (∀ (sys : EmbeddingsSystem) (db emb : List (List ℝ)) (md : List Metadata)
       (sys' : EmbeddingsSystem),
      sys.vector_db = some db → (∀ r ∈ db, l2norm r = 1) →
      (∀ e ∈ emb, sumSq e ≠ 0) →
      add_to_faiss sys emb md = .ok sys' →
      ∀ db', sys'.vector_db = some db' → ∀ r ∈ db', l2norm r = 1) ∧
    (∀ q : List ℝ, q.map (fun x => x / l2norm q) = normalizeRow q) ∧
    (∀ u v : List ℝ, dot (normalizeRow u) (normalizeRow v) = cosineSim u v) := by
  refine ⟨l2norm_normalizeRow, ?_, fun q => rfl, ?_⟩
  · intro sys db emb md sys' hdb hunit hnz hadd db' hdb' r hr
    rw [add_to_faiss, hdb] at hadd
    simp only [Except.ok.injEq] at hadd
    rw [← hadd] at hdb'
    simp only [Option.some.injEq] at hdb'
    rw [← hdb'] at hr
    rcases List.mem_append.mp hr with hin | hin
    · exact hunit r hin
    · rcases List.mem_map.mp hin with ⟨e, he, rfl⟩
      exact l2norm_normalizeRow e (hnz e he)
  · intro u v
    unfold normalizeRow cosineSim
    rw [dot_map_div]

/-- C7 witness: the unit-norm invariant and the cosine identity evaluated at
the concrete vectors `[1, 0]`, `[0, 1]` and a concrete insertion into the
fresh index. -/
theorem C7_witness :
    (sumSq [(1 : ℝ), 0] ≠ 0 ∧ l2norm (normalizeRow [(1 : ℝ), 0]) = 1) ∧
    (∀ r ∈ ([] ++ [[(1 : ℝ), 0], [(0 : ℝ), 1]].map normalizeRow), l2norm r = 1) ∧
    dot (normalizeRow [(1 : ℝ), 0]) (normalizeRow [(0 : ℝ), 1])
      = cosineSim [(1 : ℝ), 0] [(0 : ℝ), 1] := by
  have hnz1 : sumSq [(1 : ℝ), 0] ≠ 0 := by simp [sumSq]
  have hnz2 : sumSq [(0 : ℝ), 1] ≠ 0 := by simp [sumSq]
  refine ⟨⟨hnz1, C7_unit_vectors.1 [(1 : ℝ), 0] hnz1⟩, ?_, C7_unit_vectors.2.2.2 _ _⟩
  exact C7_unit_vectors.2.1 sysFresh [] [[(1 : ℝ), 0], [(0 : ℝ), 1]]
    [[], []]
    { model := none,
      vector_db := some ([] ++ [[(1 : ℝ), 0], [(0 : ℝ), 1]].map normalizeRow),
      chunk_embeddings := [] ++ [[(1 : ℝ), 0], [(0 : ℝ), 1]].map normalizeRow,
      chunk_metadata := [] ++ [[], []] }
    rfl (by simp)
    (by
      intro e he
      simp only [List.mem_cons, List.not_mem_nil, or_false] at he
      rcases he with rfl | rfl
      · exact hnz1
      · exact hnz2)
    rfl
    ([] ++ [[(1 : ℝ), 0], [(0 : ℝ), 1]].map normalizeRow) rfl

/-- C9: `save_database` followed by `load_database` into a fresh embeddings
system (same model, empty index, empty metadata) reproduces exactly the same
`search` result — identical rankings and identical scores — for every query
and every `top_k`, for every starting index state. -/
theorem C9_save_load_roundtrip (sys fresh : EmbeddingsSystem) (q : String)
    (k : Nat) (hm : fresh.model = sys.model)
    (hdb : fresh.vector_db = some []) (hmd : fresh.chunk_metadata = []) :
    search (load_database fresh (save_database sys)) q k = search sys q k := by
  cases hvdb : sys.vector_db with
  | none =>
    have hsave : save_database sys = none := by simp [save_database, hvdb]
    rw [hsave]
    show search fresh q k = search sys q k
    unfold search
    rw [hm, generate_embeddings_congr fresh sys hm]
    cases sys.model with
    | none => rfl
    | some encode =>
      cases generate_embeddings sys [q] with
      | error e => rfl
      | ok rows =>
        simp only
        rw [search_faiss_of_fresh fresh (rows.headD []) k hdb hmd,
          search_faiss_of_none sys (rows.headD []) k hvdb]
  | some db =>
    have hsave : save_database sys =
        some { faiss_index := db, chunk_embeddings := sys.chunk_embeddings,
               chunk_metadata := sys.chunk_metadata } := by
      simp [save_database, hvdb]
    rw [hsave]
    exact search_congr _ sys q k hm (by simp [load_database, hvdb])
      (by simp [load_database])

/-- C4: the chunker does **not** terminate on every valid input: with
`chunk_size = 10`, `chunk_overlap = 5` (satisfying `chunk_size > 0`,
`0 ≤ chunk_overlap < chunk_size`) and text `"aaaa.bbbbbccccc"`, the
sentence-boundary snap pulls the window end back to index 5 on every
iteration, so `start` is recomputed as `5 - 5 = 0` forever — the code has no
forward-progress guard, and the loop never finishes, whatever fuel it is
given. -/
theorem C4_chunker_nonterminating :
    ∀ fuel : Nat, chunk_text "aaaa.bbbbbccccc" 10 5 fuel = none := by
  intro fuel
  simp only [chunk_text]
  rw [show normalizeWs "aaaa.bbbbbccccc".data = c4text from by decide]
  rw [if_neg (by decide : ¬ (c4text.length ≤ 10))]
  rw [c4_stall fuel []]
  rfl

/-- C1: the failing scenario evaluated end to end.  Ingesting the two chunks
produced by the document processor (chunk metadata carries `filename`,
`chunk_index`, `total_chunks` — but **not** the chunk text) and then
searching for `"First chunk"` with `topK = 1` returns the matching record
with the right source filename and score 1, but with `content = ""`: the
`content` field is recovered from `chunk_metadata[idx].get('content', '')`,
and the processor never stores the chunk text under `'content'`, so the
original chunk content is lost — not `"First chunk"` as the claim states. -/
theorem C1_search_loses_content :
    process_document "First chunk" [("filename", MetaVal.str "a.txt")] 1000 200 1
        = some docA ∧
    process_document "Second chunk" [("filename", MetaVal.str "b.txt")] 1000 200 1
        = some docB ∧
    add_documents sysC1 [docA, docB] = .ok sysC1' ∧
    search sysC1' "First chunk" 1
        = .ok [{ content := "", metadata := mdA, score := 1 }] ∧
    Metadata.getStrD mdA "filename" "Unknown" = "a.txt" ∧
    ("" : String) ≠ "First chunk" := by
  have hadd : add_documents sysC1 [docA, docB] = .ok
      { model := sysC1.model,
        vector_db := some [normalizeRow [1, 0], normalizeRow [0, 1]],
        chunk_embeddings := [normalizeRow [1, 0], normalizeRow [0, 1]],
        chunk_metadata := [mdA, mdB] } := rfl
  have hsearch : search sysC1' "First chunk" 1
      = .ok (search_faiss sysC1' [(1 : ℝ), 0] 1) := rfl
  refine ⟨rfl, rfl, ?_, ?_, by decide, by decide⟩
  · rw [hadd]
    simp only [normalizeRow_e1, normalizeRow_e2]
    rfl
  · rw [hsearch, search_faiss_sysC1']

/-- C2: `generate_response` is **not** fault-free in `personal_storytelling`
mode: the storytelling fallback template contains the placeholders `lesson`
and `topic`, but `format` is called with only `context`, `skill` and
`achievement`, so `_generate_fallback_response` raises `KeyError('lesson')`;
when the generation call fails (here: a client without the invoked
`chat.completions.create` attribute) the `KeyError` escapes both `except`
handlers of the LLM path and propagates out of `generate_response`. -/
theorem C2_storytelling_fallback_keyerror (scoreRepr : ℝ → String) :
    generate_fallback_response agStory "Tell me a story"
        [{ content := "", metadata := [("filename", MetaVal.str "a.txt")],
           score := 1 }]
      = .error (.keyError "lesson") ∧
    generate_response scoreRepr agStory "Tell me a story" true
      = .error (.keyError "lesson") := by
  have hfb : generate_fallback_response agStory "Tell me a story"
      [{ content := "", metadata := [("filename", MetaVal.str "a.txt")],
         score := 1 }]
      = .error (.keyError "lesson") := rfl
  have hs : search agStory.embeddings_system "Tell me a story" 5
      = .ok (search_faiss sysStory [(1 : ℝ), 0] 5) := rfl
  have hskb : search_knowledge_base agStory "Tell me a story" 5
      = [{ content := "", metadata := [("filename", MetaVal.str "a.txt")],
           score := 1 }] := by
    unfold search_knowledge_base
    rw [if_neg (by decide : ¬ (agStory.knowledge_base_initialized = false))]
    rw [hs, search_faiss_sysStory]
  have hllm : generate_llm_response scoreRepr agStory "Tell me a story"
      [{ content := "", metadata := [("filename", MetaVal.str "a.txt")],
         score := 1 }]
      = .error (.keyError "lesson") := rfl
  have hmain : generate_response scoreRepr agStory "Tell me a story" true
      = .error (.keyError "lesson") := by
    simp only [generate_response]
    rw [if_neg (by decide : ¬ (agStory.documents_loaded = false))]
    rw [hskb]
    rw [if_pos (by decide :
      (agStory.openai_client.isSome || agStory.anthropic_client.isSome) = true)]
    rw [hllm]
    rfl
  exact ⟨hfb, hmain⟩

/-- C5 counterexample: a generation-backed answer with **no** retrieval
results gets confidence `"medium"`, not `"low"` as the claim requires: on a
concrete agent with documents loaded, a succeeding client, and empty
retrieval, `generate_response` returns confidence `"medium"`. -/
theorem C5_counterexample :
    (generate_response scoreRepr0 agC5 "What are your skills?" true).map
        (fun p => p.2.confidence) = .ok "medium" ∧
    ("medium" : String) ≠ "low" := by
  exact ⟨rfl, by decide⟩

/-- C5 (amended): the confidence rule of the code: a generation-backed
answer has confidence `high` with non-empty retrieval and `medium` (not
`low`) with empty retrieval; a fallback answer has confidence `medium` with
non-empty retrieval and `low` with empty retrieval; and the no-documents
short-circuit has confidence `low`. -/
theorem C5_confidence_rule :
    (∀ (call : String → String → Nat → Except String String) (ag : Agent)
       (fp uq : String) (srs : List SearchResult) (text : String),
      call fp uq (maxTokensOf ag.current_mode) = .ok text →
      (generate_openai_response call ag fp uq srs).map (fun r => r.confidence)
        = .ok (if srs.isEmpty then "medium" else "high")) ∧
    (∀ (ag : Agent) (uq : String) (srs : List SearchResult) (r : ResponseDict),
      generate_fallback_response ag uq srs = .ok r →
      r.confidence = if srs.isEmpty then "low" else "medium") ∧
    (∀ (sr : ℝ → String) (ag : Agent) (uq : String) (inc : Bool),
      ag.documents_loaded = false →
      (generate_response sr ag uq inc).map (fun p => p.2.confidence)
        = .ok "low") := by
  refine ⟨?_, ?_, ?_⟩
  · intro call ag fp uq srs text h
    unfold generate_openai_response
    rw [h]
    rfl
  · intro ag uq srs r h
    unfold generate_fallback_response at h
    by_cases he : srs.isEmpty
    · rw [if_pos he] at h
      rw [if_pos he]
      simp only [Except.ok.injEq] at h
      rw [← h]
    · rw [if_neg he] at h
      rw [if_neg he]
      have h' : (formatSegs (mode_templates ag.current_mode)
          [("context", (srs.headD ⟨"", [], 0⟩).content.take 100 ++ "..."),
           ("skill", "relevant skills"),
           ("achievement", "professional achievements")]).map
          (fun text => ResponseDict.mk text (responseSources srs)
            ag.current_mode "medium")
          = .ok r := h
      cases hf : formatSegs (mode_templates ag.current_mode)
          [("context", (srs.headD ⟨"", [], 0⟩).content.take 100 ++ "..."),
           ("skill", "relevant skills"),
           ("achievement", "professional achievements")] with
      | error e => rw [hf] at h'; exact absurd h' (by simp [Except.map])
      | ok t =>
        rw [hf] at h'
        simp only [Except.map, Except.ok.injEq] at h'
        rw [← h']
  · intro sr ag uq inc h
    simp [generate_response, h, Except.map]

/-- C5 witness: the three branches of the amended confidence rule evaluated
at concrete inputs. -/
theorem C5_witness :
    ((fun (_ : String) (_ : String) (_ : Nat) =>
        (Except.ok "hi" : Except String String)) "p" "q"
          (maxTokensOf agW.current_mode) = .ok "hi") ∧
    (generate_openai_response (fun _ _ _ => Except.ok "hi") agW "p" "q" []).map
        (fun r => r.confidence)
      = .ok (if ([] : List SearchResult).isEmpty then "medium" else "high") ∧
    (generate_fallback_response agW "q" [] =
        .ok { response := NO_INFO_RESPONSE, sources := [], mode := "interview",
              confidence := "low" }) ∧
    ({ response := NO_INFO_RESPONSE, sources := [], mode := "interview",
       confidence := "low" } : ResponseDict).confidence
      = (if ([] : List SearchResult).isEmpty then "low" else "medium") ∧
    agW.documents_loaded = false ∧
    (generate_response scoreRepr0 agW "q" true).map (fun p => p.2.confidence)
      = .ok "low" :=
  ⟨rfl,
   C5_confidence_rule.1 (fun _ _ _ => Except.ok "hi") agW "p" "q" [] "hi" rfl,
   rfl,
   C5_confidence_rule.2.1 agW "q" []
     { response := NO_INFO_RESPONSE, sources := [], mode := "interview",
       confidence := "low" } rfl,
   rfl,
   C5_confidence_rule.2.2 scoreRepr0 agW "q" true rfl⟩

/-- C9 witness: the round trip evaluated at a concrete state and query. -/
theorem C9_witness :
    sysFresh.model = sysEmpty.model ∧ sysFresh.vector_db = some [] ∧
    sysFresh.chunk_metadata = [] ∧
    search (load_database sysFresh (save_database sysEmpty)) "a query" 3
      = search sysEmpty "a query" 3 :=
  ⟨rfl, rfl, rfl, C9_save_load_roundtrip sysEmpty sysFresh "a query" 3 rfl rfl rfl⟩

end Codex
